import Mathlib

/-!
# Verification of the ac-mesh-controller core (`pi_controller/controller.py`)

A shallow embedding of the mesh controller's pure logic:

* the packet codec (`build_packet`, `is_packet`, `parse_packet`);
* the durable actuator-state event log (`get_last_ac_state`, `get_ac_state`,
  `database_log`), modelled as a list of `(state, timestamp)` rows, newest
  first, with timestamps in whole seconds;
* the safety-watchdog step at the top of the main loop and the `t`-frame
  handler that resets its latches;
* the `a`-command handler (keypad to relay forwarding) and the `q`
  state-query handler;
* `send_message_to_node`'s bounded retry loop, with mesh-write outcomes
  supplied by an oracle;
* the node health bookkeeping (`ping_node`, inbound-frame tracking,
  disconnection) over the connected/failed lists;
* the single-slot ACK-wait state (`start_waiting_for_ack`,
  `handle_failed_clients`);
* the socket-server command dispatcher of the main loop.

Python strings are modelled as Lean `String` (a wrapper around `List Char`);
Python wall-clock times as `Nat` seconds.  Every definition is written from
the corresponding source lines of `controller.py`.
-/

namespace ACMesh

/-! ## Python string helpers

`splitChar sep` models Python `str.split(sep)` for a one-character
separator (so `splitChar ',' []` is `[[]]`, matching `"".split(",") == [""]`),
and `joinChar sep` models `sep.join(...)`. -/

def splitChar (sep : Char) : List Char → List (List Char)
  | [] => [[]]
  | c :: cs =>
    if c = sep then [] :: splitChar sep cs
    else
      match splitChar sep cs with
      | [] => [[c]]
      | s :: ss => (c :: s) :: ss

def joinChar (sep : Char) : List (List Char) → List Char
  | [] => []
  | [p] => p
  | p :: ps => p ++ sep :: joinChar sep ps

/-- Value of a nonempty list of decimal digits. -/
def digitsToNat (cs : List Char) : Nat :=
  cs.foldl (fun a c => a * 10 + (c.toNat - 48)) 0

/-- Models Python `int(s)` on strings of an optional sign followed by one or
more decimal digits; the other forms Python accepts (surrounding whitespace,
underscore grouping) are outside the model.  `none` models a `ValueError`. -/
def pyInt (s : String) : Option Int :=
  match s.data with
  | [] => none
  | '-' :: rest =>
    if rest ≠ [] ∧ rest.all Char.isDigit then some (-(digitsToNat rest : Int)) else none
  | '+' :: rest =>
    if rest ≠ [] ∧ rest.all Char.isDigit then some (digitsToNat rest : Int) else none
  | cs =>
    if cs.all Char.isDigit then some (digitsToNat cs : Int) else none

/-! ## Packet codec (controller.py lines 611-677) -/

/-- `build_packet(**kwargs)`: joins `f"{k}{v}"` pairs with `","`
(the kwargs are modelled as an ordered association list). -/
def build_packet (fields : List (Char × String)) : String :=
  ⟨joinChar ',' (fields.map fun kv => kv.1 :: kv.2.data)⟩

/-- `is_packet(message)`: length at least 2, first char alphabetic, second
char a digit or `'-'`. -/
def is_packet (message : String) : Bool :=
  match message.data with
  | c0 :: c1 :: _ => c0.isAlpha && (c1.isDigit || c1 = '-')
  | _ => false

/-- Python dict assignment `result[key] = value`: replace in place if the key
exists, otherwise append. -/
def dictInsert (d : List (Char × String)) (k : Char) (v : String) :
    List (Char × String) :=
  match d with
  | [] => [(k, v)]
  | (k', v') :: rest =>
    if k' = k then (k, v) :: rest else (k', v') :: dictInsert rest k v

/-- `parse_packet(message)`: `None` unless `is_packet`; splits on `","`,
each segment of length ≥ 2 contributes first char ↦ remainder, shorter
segments are dropped silently. -/
def parse_packet (message : String) : Option (List (Char × String)) :=
  if is_packet message then
    some ((splitChar ',' message.data).foldl
      (fun acc pair =>
        match pair with
        | k :: v0 :: vrest => dictInsert acc k ⟨v0 :: vrest⟩
        | _ => acc)
      [])
  else none

/-! ## Constants (controller.py lines 74-82) -/

def TEMP_WARNING_TIMEOUT : Nat := 90
def TEMP_SAFETY_TIMEOUT : Nat := 180
def PING_INTERVAL : Nat := 60
def DB_STALE_THRESHOLD : Nat := 40
def NODE_AC_RELAY : Nat := 1
def NODE_TEMP_LCD : Nat := 2

/-! ## Durable actuator-state event log (controller.py lines 201-306)

The `ac_data` table is modelled as a list of `(ac_state, timestamp)` rows,
newest first (the SQL reads use `ORDER BY date DESC, time DESC LIMIT 1`);
timestamps are `Nat` seconds. -/

/-- `get_last_ac_state()`: most recent row's state and timestamp, or
`(None, None)` on an empty table. -/
def get_last_ac_state (db : List (Bool × Nat)) : Option Bool × Option Nat :=
  match db with
  | [] => (none, none)
  | (s, t) :: _ => (some s, some t)

/-- `get_ac_state()`: most recent row's state, `False` on an empty table. -/
def get_ac_state (db : List (Bool × Nat)) : Bool :=
  match db with
  | [] => false
  | (s, _) :: _ => s

/-- `database_log(state)`: skip when the last logged state equals `state`
(Python `last_state == state`, where `None == state` is falsy), otherwise
insert a new row stamped `now`. -/
def database_log (state : Bool) (now : Nat) (db : List (Bool × Nat)) :
    List (Bool × Nat) :=
  if (get_last_ac_state db).1 = some state then db else (state, now) :: db

/-! ## Safety watchdog (controller.py lines 864-891) and the `t`-frame
handler that resets its latches (lines 961-968) -/

/-- The main loop's per-iteration temperature-monitoring locals:
`warning_printed`, `shutdown_executed`, `last_temp_received_time`. -/
structure WatchState where
  warningPrinted : Bool
  shutdownExecuted : Bool
  lastTempReceivedTime : Nat
  deriving Repr, DecidableEq

/-- One pass of the temperature-monitoring section at the top of the loop
(lines 880-891).  Returns the updated locals, the frames sent (node, text),
and the database after any `database_log(False)`. -/
def watchdogStep (now : Nat) (st : WatchState) (db : List (Bool × Nat)) :
    WatchState × List (Nat × String) × List (Bool × Nat) :=
  let wp := st.warningPrinted ||
    decide (now - st.lastTempReceivedTime > TEMP_WARNING_TIMEOUT)
  if !st.shutdownExecuted &&
      decide (now - st.lastTempReceivedTime > TEMP_SAFETY_TIMEOUT) then
    if get_ac_state db then
      (⟨wp, true, st.lastTempReceivedTime⟩,
        [(NODE_AC_RELAY, build_packet [('a', "0")])],
        database_log false now db)
    else
      (⟨wp, true, st.lastTempReceivedTime⟩, [], db)
  else
    (⟨wp, st.shutdownExecuted, st.lastTempReceivedTime⟩, [], db)

/-- The `"t" in packet` handler (lines 961-968): store the reading, clear
both latches, reset the timer, and unless `s` is also present reply with the
current actuator state.  Returns the new locals, `last_known_temp`, and the
frames sent. -/
def handleTempFrame (tval : String) (sIn : Bool) (fromNode : Nat) (now : Nat)
    (db : List (Bool × Nat)) :
    WatchState × Option String × List (Nat × String) :=
  (⟨false, false, now⟩, some tval,
    if !sIn then
      [(fromNode, build_packet [('a', if get_ac_state db then "1" else "0")])]
    else [])

/-! ## The `a`-command and `q`-query mesh handlers -/

/-- The `"a" in packet and "s" not in packet and "t" not in packet` handler
for a frame from the sensor/display node (lines 971-989, keypad branch).
`fwdOk`/`echoOk` are the delivery outcomes of the two
`send_message_to_node` calls.  Returns `none` when `int(packet["a"])`
raises `ValueError` (uncaught by the loop's `except UnicodeDecodeError`);
otherwise the frames attempted (in order), the database after any
`database_log`, and the local error lines. -/
def handleAcCommand (aval : String) (fwdOk _echoOk : Bool) (now : Nat)
    (db : List (Bool × Nat)) :
    Option (List (Nat × String) × List (Bool × Nat) × List String) :=
  match pyInt aval with
  | none => none
  | some i =>
    let ac_state : Bool := i == 1
    if ac_state then
      if fwdOk then
        some ([(NODE_AC_RELAY, build_packet [('a', "1")]),
               (NODE_TEMP_LCD, build_packet [('a', "1")])],
              database_log true now db, [])
      else
        some ([(NODE_AC_RELAY, build_packet [('a', "1")])], db,
              ["Failed to turn ON AC - AC_Interface not responding"])
    else
      if fwdOk then
        some ([(NODE_AC_RELAY, build_packet [('a', "0")]),
               (NODE_TEMP_LCD, build_packet [('a', "0")])],
              database_log false now db, [])
      else
        some ([(NODE_AC_RELAY, build_packet [('a', "0")])], db,
              ["Failed to turn OFF AC - AC_Interface not responding"])

/-- The `"q" in packet` handler (lines 1004-1012): reply with the last
durable state when it exists and is at most `DB_STALE_THRESHOLD` minutes
old, otherwise `database_log(False)` and reply off.  Returns the frames
sent and the database afterwards. -/
def handleQuery (fromNode : Nat) (now : Nat) (db : List (Bool × Nat)) :
    List (Nat × String) × List (Bool × Nat) :=
  let last := get_last_ac_state db
  match last.1, last.2 with
  | some s, some ts =>
    if now - ts ≤ DB_STALE_THRESHOLD * 60 then
      ([(fromNode, build_packet [('a', if s then "1" else "0")])], db)
    else
      (([(fromNode, build_packet [('a', "0")])]), database_log false now db)
  | _, _ =>
    (([(fromNode, build_packet [('a', "0")])]), database_log false now db)

/-! ## `send_message_to_node` (controller.py lines 553-582)

The body is `for attempt in range(3)`: refresh the mesh
(`mesh.update()`; `mesh.dhcp()` when `node_id == 0`, always true for the
controller), then `mesh.write(...)`; return `True` on a successful write,
sleep 0.25 s between failed attempts, return `False` after the loop.  The
write outcomes are an oracle `ok : Nat → Bool` indexed by attempt number. -/

inductive SendEvent where
  | resync
  | write (attempt : Nat) (ok : Bool)
  | pause
  deriving Repr, DecidableEq

/-- The `for attempt in range(3)` body, over the remaining attempt
numbers; no pause after the last attempt (`if attempt < 2`). -/
def sendLoop (ok : Nat → Bool) : List Nat → List SendEvent × Bool
  | [] => ([], false)
  | attempt :: rest =>
    let es : List SendEvent := [.resync, .write attempt (ok attempt)]
    if ok attempt then (es, true)
    else
      let p : List SendEvent := if rest = [] then [] else [.pause]
      let r := sendLoop ok rest
      (es ++ p ++ r.1, r.2)

/-- `send_message_to_node(node_id, message)`: the event trace and the
returned boolean, with `range(3)` as the attempt list. -/
def send_message_to_node (ok : Nat → Bool) : List SendEvent × Bool :=
  sendLoop ok [0, 1, 2]

/-- Number of mesh-write attempts in a trace. -/
def writeCount (es : List SendEvent) : Nat :=
  (es.filter fun e => match e with | .write _ _ => true | _ => false).length

/-- Number of transport re-synchronizations in a trace. -/
def resyncCount (es : List SendEvent) : Nat :=
  (es.filter fun e => match e with | .resync => true | _ => false).length

/-! ## Node health bookkeeping (controller.py lines 757-782, 829-832,
931-936)

`connected_clients` and `connect_fail_clients` are Python lists; Python
`list.remove` (always guarded by an `in` test in this code) removes the
first occurrence, i.e. `List.erase`. -/

structure Health where
  connected : List Nat
  failed : List Nat
  deriving Repr, DecidableEq

/-- The membership mutations of the health state:

* `ping lastHeard now ok n` — `ping_node(n)` (lines 757-782) with the
  in-memory `_node_last_heard` value and the send outcome `ok`;
* `inbound n` — the tracking block for an inbound mesh frame
  (lines 931-936);
* `disconnect n` — `handle_client_disconnection` (lines 829-832). -/
inductive HealthOp where
  | ping (lastHeard now : Nat) (ok : Bool) (n : Nat)
  | inbound (n : Nat)
  | disconnect (n : Nat)

def applyHealthOp (h : Health) : HealthOp → Health
  | .ping lastHeard now ok n =>
    if now - lastHeard < PING_INTERVAL then h
    else if !ok then
      { connected := h.connected.erase n, failed := h.failed ++ [n] }
    else
      { connected := if n ∈ h.connected then h.connected
                     else h.connected ++ [n],
        failed := h.failed.erase n }
  | .inbound n =>
    { connected := if n ∈ h.connected then h.connected
                   else h.connected ++ [n],
      failed := h.failed.erase n }
  | .disconnect n =>
    { connected := h.connected.erase n, failed := h.failed }

/-- Both sets start empty (lines 134-135). -/
def initialHealth : Health := ⟨[], []⟩

def runHealth (ops : List HealthOp) : Health :=
  ops.foldl applyHealthOp initialHealth

/-! ## ACK-wait state (controller.py lines 785-826) -/

structure AckWait where
  node_id : Nat
  start_time : Nat
  timeout : Nat
  deriving Repr, DecidableEq

/-- `start_waiting_for_ack(node_id, timeout=15)`: unconditionally overwrite
the single global slot. -/
def start_waiting_for_ack (n : Nat) (now : Nat) (timeout : Nat := 15)
    (_prev : Option AckWait := none) : Option AckWait :=
  some ⟨n, now, timeout⟩

/-- `handle_failed_clients()`: `for node_id in connect_fail_clients:
start_waiting_for_ack(node_id)` threaded over the slot. -/
def handle_failed_clients (failed : List Nat) (now : Nat)
    (w : Option AckWait) : Option AckWait :=
  failed.foldl (fun slot n => start_waiting_for_ack n now 15 slot) w

/-- `wait_for_ack()`: `some true` means recovered, `some false` timeout,
`none` still waiting or no wait pending; also returns the slot afterwards. -/
def wait_for_ack (failed : List Nat) (now : Nat) (w : Option AckWait) :
    Option Bool × Option AckWait :=
  match w with
  | none => (none, none)
  | some a =>
    if a.node_id ∉ failed then (some true, none)
    else if now - a.start_time ≥ a.timeout then (some false, none)
    else (none, some a)

/-! ## Socket-server command dispatch (controller.py lines 1025-1117)

One `message_queue` item handled by the `while not message_queue.empty()`
body.  Mesh-send outcomes come from an oracle `sendOk (node, text)`;
database and settings reads are snapshots in the context.  The effects are
returned as an ordered action trace. -/

/-- Python `str.startswith`. -/
def startsWithStr (p s : String) : Bool :=
  p.data.isPrefixOf s.data

/-- Python `x if x else d` for an optional string (`None` and `""` are
falsy). -/
def truthyOr (o : Option String) (d : String) : String :=
  match o with
  | some t => if t = "" then d else t
  | none => d

/-- Observable effects of one socket command, in execution order.
`dbLog b` is a call to `database_log(b)` (which itself de-duplicates);
`togglePerm` is `toggle_ac_allowed()`'s flag flip and durable save;
`savedTemps`/`sentSettings` are the `save_temps`/`send_settings_to_node`
calls of the `setTemps` branch. -/
inductive SockAction where
  | meshSend (node : Nat) (msg : String)
  | clientReply (msg : String)
  | dbLog (state : Bool)
  | togglePerm
  | savedTemps (mx mn : String)
  | sentSettings
  | info (msg : String)
  | disconnect
  deriving Repr, DecidableEq

/-- The loop state and environment a socket command can read:
the current time, the `ac_data` rows, the permission flag, the cached
`last_known_temp`, the decimal renderings of the `get_temps()` thresholds
(floating-point formatting is outside the model), the `mesh_nodes`
rows as (name, status), and the mesh-send outcome oracle. -/
structure Ctx where
  now : Nat
  db : List (Bool × Nat)
  acAllowed : Bool
  lastKnownTemp : Option String
  maxTempStr : String
  minTempStr : String
  knownNodes : List (String × String)
  sendOk : Nat → String → Bool

/-- The `if user_input == ... elif ...` chain (lines 1029-1117). -/
def socketStep (ctx : Ctx) (cmd : String) : List SockAction :=
  if cmd = "AC_Status" then
    match get_last_ac_state ctx.db with
    | (some s, some ts) =>
      if ctx.now - ts ≤ DB_STALE_THRESHOLD * 60 then
        [.clientReply (if s then "AC is ON" else "AC is OFF")]
      else [.dbLog false, .clientReply "AC is OFF"]
    | _ => [.dbLog false, .clientReply "AC is OFF"]
  else if cmd = "AC_Perm_Status" then
    [.clientReply (if ctx.acAllowed then "True" else "False")]
  else if cmd = "ToggleAC" then
    [.togglePerm,
     .meshSend NODE_TEMP_LCD
       (build_packet [('l', if !ctx.acAllowed then "1" else "0")])]
  else if cmd = "TurnOnAC" then
    let pkt := build_packet [('a', "1")]
    if ctx.sendOk NODE_AC_RELAY pkt then
      [.meshSend NODE_AC_RELAY pkt, .meshSend NODE_TEMP_LCD pkt,
       .dbLog true, .clientReply "AC is ON"]
    else
      [.meshSend NODE_AC_RELAY pkt,
       .clientReply "Failed - AC_Interface not responding"]
  else if cmd = "TurnOffAC" then
    let pkt := build_packet [('a', "0")]
    if ctx.sendOk NODE_AC_RELAY pkt then
      [.meshSend NODE_AC_RELAY pkt, .meshSend NODE_TEMP_LCD pkt,
       .dbLog false, .clientReply "AC is OFF"]
    else
      [.meshSend NODE_AC_RELAY pkt,
       .clientReply "Failed - AC_Interface not responding"]
  else if cmd = "getTemps" then
    [.clientReply ("Temps:" ++ ctx.maxTempStr ++ "," ++ ctx.minTempStr)]
  else if cmd = "ResetNode" then
    let pkt := build_packet [('r', "1")]
    [.meshSend NODE_AC_RELAY pkt,
     .clientReply (if ctx.sendOk NODE_AC_RELAY pkt then "ResetNode Success"
                   else "ResetNode Failed")]
  else if cmd = "current_temp" then
    [.clientReply (truthyOr ctx.lastKnownTemp "---")]
  else if cmd = "shut_down" then
    [.info "Socket client disconnected", .disconnect]
  else if startsWithStr "setBrightness:" cmd then
    match (splitChar ':' cmd.data).get? 1 with
    | none => [.clientReply "Invalid format: use setBrightness:0-100"]
    | some seg =>
      match pyInt ⟨seg⟩ with
      | none => [.clientReply "Invalid format: use setBrightness:0-100"]
      | some b =>
        let b' := max 0 (min 100 b)
        [.meshSend NODE_TEMP_LCD (build_packet [('b', toString b')]),
         .info ("LED brightness set to " ++ toString b' ++ "%")]
  else if startsWithStr "setTemps:" cmd then
    match splitChar ':' cmd.data with
    | [_, temps] =>
      match splitChar ',' temps with
      | [mx, mn] =>
        [.savedTemps (String.mk mx).trim (String.mk mn).trim, .sentSettings]
      | _ => [.clientReply "Invalid format: use setTemps:max,min"]
    | _ => [.clientReply "Invalid format: use setTemps:max,min"]
  else if cmd = "status" then
    let temp := truthyOr ctx.lastKnownTemp "---"
    let acStr := if get_ac_state ctx.db then "ON" else "OFF"
    let allowStr := if ctx.acAllowed then "True" else "False"
    let nodeParts := ctx.knownNodes.map fun p => p.1 ++ "=" ++ p.2
    let nodesStr := if nodeParts = [] then "---"
                    else String.intercalate ";" nodeParts
    [.clientReply ("status:temp=" ++ temp ++ ",ac=" ++ acStr ++
       ",max=" ++ ctx.maxTempStr ++ ",min=" ++ ctx.minTempStr ++
       ",allow=" ++ allowStr ++ ",nodes=" ++ nodesStr)]
  else
    [.clientReply ("Unknown command: " ++ cmd)]

/-- The code's staleness test for the durable state (the negation of
`last_state is not None and last_timestamp and now - last_timestamp <=
timedelta(minutes=DB_STALE_THRESHOLD)`). -/
def queryStale (now : Nat) (db : List (Bool × Nat)) : Bool :=
  match get_last_ac_state db with
  | (some _, some ts) => decide (DB_STALE_THRESHOLD * 60 < now - ts)
  | _ => true

/-! ## Splitting / joining lemmas -/

theorem splitChar_ne_nil (sep : Char) (l : List Char) :
    splitChar sep l ≠ [] := by
  induction l with
  | nil => simp [splitChar]
  | cons c cs ih =>
    simp only [splitChar]
    by_cases h : c = sep
    · simp [h]
    · simp only [if_neg h]
      cases hs : splitChar sep cs <;> simp

theorem splitChar_append (sep : Char) (p l : List Char)
    (hp : ∀ c ∈ p, c ≠ sep) :
    splitChar sep (p ++ l) =
      match splitChar sep l with
      | [] => [p]
      | s :: ss => (p ++ s) :: ss := by
  induction p with
  | nil =>
    cases hs : splitChar sep l with
    | nil => exact absurd hs (splitChar_ne_nil sep l)
    | cons s ss => simp [hs]
  | cons c p ih =>
    have hc : c ≠ sep := hp c (by simp)
    have hp' : ∀ d ∈ p, d ≠ sep := fun d hd => hp d (by simp [hd])
    cases hs : splitChar sep l with
    | nil => exact absurd hs (splitChar_ne_nil sep l)
    | cons s ss =>
      have ih' := ih hp'
      rw [hs] at ih'
      simp only [List.cons_append, splitChar, if_neg hc, List.append_eq, ih']

theorem splitChar_of_no_sep (sep : Char) (p : List Char)
    (hp : ∀ c ∈ p, c ≠ sep) :
    splitChar sep p = [p] := by
  have := splitChar_append sep p [] hp
  simpa [splitChar] using this

theorem splitChar_joinChar (sep : Char) (pieces : List (List Char))
    (hne : pieces ≠ [])
    (hsep : ∀ p ∈ pieces, ∀ c ∈ p, c ≠ sep) :
    splitChar sep (joinChar sep pieces) = pieces := by
  induction pieces with
  | nil => exact absurd rfl hne
  | cons p ps ih =>
    cases ps with
    | nil =>
      simpa [joinChar] using
        splitChar_of_no_sep sep p (hsep p (by simp))
    | cons q qs =>
      have hrest : splitChar sep (joinChar sep (q :: qs)) = q :: qs :=
        ih (by simp) (fun r hr c hc => hsep r (by simp [hr]) c hc)
      have hp : ∀ c ∈ p, c ≠ sep := hsep p (by simp)
      have : splitChar sep (p ++ sep :: joinChar sep (q :: qs)) =
          (p ++ []) :: splitChar sep (joinChar sep (q :: qs)) := by
        rw [splitChar_append sep p _ hp]
        simp [splitChar]
      simpa [joinChar, hrest] using this

/-! ## Dictionary-rebuild lemmas -/

theorem dictInsert_not_mem (d : List (Char × String)) (k : Char) (v : String)
    (h : k ∉ d.map Prod.fst) :
    dictInsert d k v = d ++ [(k, v)] := by
  induction d with
  | nil => rfl
  | cons kv rest ih =>
    have hk : kv.1 ≠ k := by
      intro he
      exact h (by simp [he])
    have h' : k ∉ rest.map Prod.fst := fun hm => h (by simp [hm])
    cases kv with
    | mk k' v' =>
      simp only [dictInsert, if_neg hk, ih h', List.cons_append]

/-- The fold body of `parse_packet`. -/
def parseFold (acc : List (Char × String)) (pair : List Char) :
    List (Char × String) :=
  match pair with
  | k :: v0 :: vrest => dictInsert acc k ⟨v0 :: vrest⟩
  | _ => acc

theorem parse_packet_eq (message : String) :
    parse_packet message =
      if is_packet message then
        some ((splitChar ',' message.data).foldl parseFold [])
      else none := rfl

theorem foldl_parseFold_pieces (f : List (Char × String)) :
    ∀ acc : List (Char × String),
      (f.map Prod.fst).Nodup →
      (∀ kv ∈ f, kv.2 ≠ "") →
      (∀ kv ∈ f, kv.1 ∉ acc.map Prod.fst) →
      (f.map fun kv => kv.1 :: kv.2.data).foldl parseFold acc = acc ++ f := by
  induction f with
  | nil => intro acc _ _ _; simp
  | cons kv fr ih =>
    intro acc hnodup hval hdisj
    cases kv with
    | mk k v =>
      have hvne : v ≠ "" := hval (k, v) (by simp)
      have hvdata : v.data ≠ [] := by
        intro hd
        apply hvne
        cases v with
        | mk data => simp at hd; simp [hd]
      cases hd : v.data with
      | nil => exact absurd hd hvdata
      | cons v0 vrest =>
        have hstep : parseFold acc (k :: v.data) = acc ++ [(k, v)] := by
          rw [hd]
          show dictInsert acc k ⟨v0 :: vrest⟩ = acc ++ [(k, v)]
          have : (⟨v0 :: vrest⟩ : String) = v := by rw [← hd]
          rw [this]
          exact dictInsert_not_mem acc k v (hdisj (k, v) (by simp))
        have hnodup' : (fr.map Prod.fst).Nodup := by
          simpa using hnodup.of_cons
        have hknotin : k ∉ fr.map Prod.fst := by
          have := hnodup
          simp only [List.map_cons, List.nodup_cons] at this
          exact this.1
        have hval' : ∀ kv ∈ fr, kv.2 ≠ "" := fun kv hm => hval kv (by simp [hm])
        have hdisj' : ∀ kv ∈ fr, kv.1 ∉ (acc ++ [(k, v)]).map Prod.fst := by
          intro kv hm
          simp only [List.map_append, List.mem_append]
          rintro (hin | hin)
          · exact hdisj kv (by simp [hm]) hin
          · simp at hin
            apply hknotin
            rw [← hin]
            exact List.mem_map_of_mem Prod.fst hm
        have h1 : (((k, v) :: fr).map fun kv => kv.1 :: kv.2.data).foldl
            parseFold acc =
            (fr.map fun kv => kv.1 :: kv.2.data).foldl parseFold
              (parseFold acc (k :: v.data)) := by simp
        rw [h1, hstep, ih _ hnodup' hval' hdisj']
        simp

theorem data_ne_nil_of_ne_empty (v : String) (h : v ≠ "") : v.data ≠ [] := by
  intro hd
  apply h
  cases v with
  | mk d => simp only [String.data] at hd; simp [hd]

theorem joinChar_cons (sep : Char) (p : List Char) (ps : List (List Char)) :
    joinChar sep (p :: ps) =
      p ++ (match ps with
            | [] => []
            | _ :: _ => sep :: joinChar sep ps) := by
  cases ps <;> simp [joinChar]

/-! ## C4: codec round-trip -/

/-- C4 (counterexample): the round-trip law fails as stated.  The frame
`{'a': 'b'}` has single-character keys and separator-free values, yet
`build_packet` yields `"ab"`, which `is_packet` rejects (second character
neither a digit nor `'-'`), so `parse_packet` returns `None`, not the
frame. -/
theorem roundtrip_fails_alpha_value :
    parse_packet (build_packet [('a', "b")]) ≠ some [('a', "b")] := by
  decide

/-- C4 (amended): `parse_packet (build_packet f) = f` holds for nonempty
frames with distinct keys none of which is the separator `','`, values that
are nonempty and separator-free, an alphabetic first key, and a first value
starting with a digit or `'-'` (so that `is_packet` accepts the encoding).
-/
theorem parse_build_roundtrip (k0 : Char) (v0 : String)
    (fr : List (Char × String))
    (hnodup : (((k0, v0) :: fr).map Prod.fst).Nodup)
    (hkey : ∀ kv ∈ (k0, v0) :: fr, kv.1 ≠ ',')
    (hval : ∀ kv ∈ (k0, v0) :: fr, kv.2 ≠ "" ∧ ',' ∉ kv.2.data)
    (halpha : k0.isAlpha = true)
    (hfirst : v0.data.headI.isDigit = true ∨ v0.data.headI = '-') :
    parse_packet (build_packet ((k0, v0) :: fr)) = some ((k0, v0) :: fr) := by
  have hv0ne : v0.data ≠ [] :=
    data_ne_nil_of_ne_empty v0 (hval (k0, v0) (by simp)).1
  have hdata : (build_packet ((k0, v0) :: fr)).data =
      joinChar ',' (((k0, v0) :: fr).map fun kv => kv.1 :: kv.2.data) := rfl
  -- the encoded text starts with the first key and first value
  obtain ⟨t, ht⟩ : ∃ t, (build_packet ((k0, v0) :: fr)).data =
      k0 :: (v0.data ++ t) := by
    rw [hdata, List.map_cons, joinChar_cons]
    cases fr.map (fun kv => kv.1 :: kv.2.data) with
    | nil => exact ⟨[], by simp⟩
    | cons q qs => exact ⟨',' :: joinChar ',' (q :: qs), by simp⟩
  -- the encoding passes is_packet
  have hpacket : is_packet (build_packet ((k0, v0) :: fr)) = true := by
    cases hd : v0.data with
    | nil => exact absurd hd hv0ne
    | cons c1 vr =>
      rw [hd] at ht
      have hc1 : c1.isDigit = true ∨ c1 = '-' := by
        simpa [hd] using hfirst
      simp only [is_packet, ht]
      rcases hc1 with hc1 | hc1 <;> simp [halpha, hc1]
  -- splitting recovers the pieces
  have hsepfree : ∀ p ∈ ((k0, v0) :: fr).map (fun kv => kv.1 :: kv.2.data),
      ∀ c ∈ p, c ≠ ',' := by
    intro p hp c hc
    obtain ⟨kv, hkv, rfl⟩ := List.mem_map.1 hp
    rcases List.mem_cons.1 hc with hc | hc
    · rw [hc]; exact hkey kv hkv
    · intro he
      exact (hval kv hkv).2 (he ▸ hc)
  have hsplit : splitChar ',' (build_packet ((k0, v0) :: fr)).data =
      ((k0, v0) :: fr).map fun kv => kv.1 :: kv.2.data := by
    rw [hdata]
    exact splitChar_joinChar ',' _ (by simp) hsepfree
  -- the fold rebuilds the frame
  have hfold := foldl_parseFold_pieces ((k0, v0) :: fr) [] hnodup
    (fun kv hkv => (hval kv hkv).1) (by simp)
  rw [parse_packet_eq, if_pos hpacket, hsplit, hfold]
  simp

/-- C4 (witness): the amended round-trip evaluated on a concrete frame. -/
theorem parse_build_roundtrip_witness :
    parse_packet (build_packet [('x', "78"), ('n', "-2")]) =
      some [('x', "78"), ('n', "-2")] :=
  parse_build_roundtrip 'x' "78" [('n', "-2")] (by decide) (by decide)
    (by decide) (by decide) (by decide)

/-! ## C8: event-log de-duplication -/

/-- C8: `database_log` is idempotent with respect to the most recently
logged state.  If the most recent row already records `s`, `database_log s`
appends no row; consequently a second consecutive `database_log` with the
same boolean never adds a second row. -/
theorem database_log_dedup (s : Bool) (t1 t2 : Nat) (db : List (Bool × Nat)) :
    ((get_last_ac_state db).1 = some s → database_log s t1 db = db) ∧
    database_log s t2 (database_log s t1 db) = database_log s t1 db := by
  have hhead : (get_last_ac_state (database_log s t1 db)).1 = some s := by
    rw [database_log]
    split
    · assumption
    · simp [get_last_ac_state]
  exact ⟨fun h => by rw [database_log, if_pos h],
    by rw [show database_log s t2 (database_log s t1 db) =
        database_log s t1 db from by rw [database_log, if_pos hhead]]⟩

/-- C8 (witness): concrete evaluations of both conjuncts. -/
theorem database_log_dedup_witness :
    database_log true 9 [(true, 5)] = [(true, 5)] ∧
    database_log true 9 (database_log true 3 []) = database_log true 3 [] :=
  ⟨(database_log_dedup true 9 0 [(true, 5)]).1 (by decide),
   (database_log_dedup true 3 9 []).2⟩

/-! ## C5: single-slot ACK-wait, latest failure wins -/

/-- C5 (counterexample): with the failed set `[1, 2]` persisting over two
consecutive health-cadence ticks, `handle_failed_clients` ends each tick
with node 2's wait in the single slot: node 1's wait is overwritten within
the same tick (before any `wait_for_ack` poll can observe it), so failed
nodes are not waited on one-per-tick and node 1 never gets an observable
ACK-wait of its own. -/
theorem ack_wait_last_entry_wins :
    handle_failed_clients [1, 2] 0 none = some ⟨2, 0, 15⟩ ∧
    handle_failed_clients [1, 2] 60 (handle_failed_clients [1, 2] 0 none) =
      some ⟨2, 60, 15⟩ := by
  decide

/-- C5 (amended): at most one node is ever under ACK-wait (the slot is a
single `Option`), and when several nodes fail in the same sweep the slot is
reassigned for each failed-set entry in order, so the wait surviving the
tick is the last entry's — latest failure wins; earlier entries' waits are
overwritten within the tick. -/
theorem handle_failed_clients_last_wins (fs : List Nat) (now : Nat)
    (w : Option AckWait) :
    handle_failed_clients fs now w =
      match fs.getLast? with
      | none => w
      | some n => some ⟨n, now, 15⟩ := by
  induction fs generalizing w with
  | nil => rfl
  | cons n rest ih =>
    cases rest with
    | nil => rfl
    | cons m rest2 =>
      have hstep : handle_failed_clients (n :: m :: rest2) now w =
          handle_failed_clients (m :: rest2) now (some ⟨n, now, 15⟩) := rfl
      rw [hstep, ih, List.getLast?_cons_cons]
      cases hx : (m :: rest2).getLast? with
      | none => simp at hx
      | some k => rfl

/-! ## C6: bounded-retry send -/

/-- C6: `send_message_to_node` makes at most 3 write attempts — exactly
`1`, `2` or `3` depending on the first success — with one transport
re-synchronization per attempt, returns `true` exactly when one of the
three attempts succeeds (stopping at the first success), and `false` after
3 failures.  The function is total: no exception path exists in the body.
-/
theorem send_retry_bounded (ok : Nat → Bool) :
    writeCount (send_message_to_node ok).1 =
      (if ok 0 then 1 else if ok 1 then 2 else 3) ∧
    writeCount (send_message_to_node ok).1 ≤ 3 ∧
    resyncCount (send_message_to_node ok).1 =
      writeCount (send_message_to_node ok).1 ∧
    (send_message_to_node ok).2 = (ok 0 || ok 1 || ok 2) := by
  cases h0 : ok 0 <;> cases h1 : ok 1 <;> cases h2 : ok 2 <;>
    simp [send_message_to_node, sendLoop, h0, h1, h2, writeCount,
      resyncCount]

/-! ## C1: safety-watchdog force-off is latched -/

/-- C1: when no `t` frame has been received for more than
`TEMP_SAFETY_TIMEOUT` (180 s), the force-off latch is clear, and the
durable actuator state is on, the watchdog pass sends exactly one `{a:0}`
to the actuator node and appends exactly one off-event; the latch is then
set, so a further silent pass (any later time) sends nothing and leaves the
log unchanged; a new temperature frame clears the latch again. -/
theorem watchdog_forced_off_latched (now now2 : Nat) (st : WatchState)
    (db : List (Bool × Nat))
    (hsd : st.shutdownExecuted = false)
    (htime : st.lastTempReceivedTime + TEMP_SAFETY_TIMEOUT < now)
    (hon : get_ac_state db = true) :
    (watchdogStep now st db).2.1 =
      [(NODE_AC_RELAY, build_packet [('a', "0")])] ∧
    (watchdogStep now st db).2.2 = (false, now) :: db ∧
    (watchdogStep now st db).1.shutdownExecuted = true ∧
    (watchdogStep now2 (watchdogStep now st db).1
      (watchdogStep now st db).2.2).2.1 = [] ∧
    (watchdogStep now2 (watchdogStep now st db).1
      (watchdogStep now st db).2.2).2.2 = (watchdogStep now st db).2.2 ∧
    (∀ tv sIn fn now3 db3,
      (handleTempFrame tv sIn fn now3 db3).1.shutdownExecuted = false) := by
  cases db with
  | nil => rw [get_ac_state] at hon; exact absurd hon (by simp)
  | cons r rest =>
    obtain ⟨b, tb⟩ := r
    have hb : b = true := by simpa [get_ac_state] using hon
    subst hb
    have hc : TEMP_SAFETY_TIMEOUT < now - st.lastTempReceivedTime := by
      simp only [TEMP_SAFETY_TIMEOUT] at htime ⊢
      omega
    have hdb : database_log false now ((true, tb) :: rest) =
        (false, now) :: (true, tb) :: rest := by
      simp [database_log, get_last_ac_state]
    have hstep : watchdogStep now st ((true, tb) :: rest) =
        (⟨st.warningPrinted ||
            decide (now - st.lastTempReceivedTime > TEMP_WARNING_TIMEOUT),
          true, st.lastTempReceivedTime⟩,
         [(NODE_AC_RELAY, build_packet [('a', "0")])],
         (false, now) :: (true, tb) :: rest) := by
      simp [watchdogStep, hsd, hc, get_ac_state, hdb]
    rw [hstep]
    refine ⟨rfl, rfl, rfl, ?_, ?_, fun _ _ _ _ _ => rfl⟩ <;>
      simp [watchdogStep]

/-- C1 (witness): the latch scenario at concrete inputs — silence since
time 0 observed at 181 s with the log showing "on". -/
theorem watchdog_forced_off_latched_witness :
    (watchdogStep 181 ⟨false, false, 0⟩ [(true, 0)]).2.1 =
      [(NODE_AC_RELAY, build_packet [('a', "0")])] ∧
    (watchdogStep 181 ⟨false, false, 0⟩ [(true, 0)]).2.2 =
      (false, 181) :: [(true, 0)] ∧
    (watchdogStep 300 (watchdogStep 181 ⟨false, false, 0⟩ [(true, 0)]).1
      (watchdogStep 181 ⟨false, false, 0⟩ [(true, 0)]).2.2).2.1 = [] := by
  have h := watchdog_forced_off_latched 181 300 ⟨false, false, 0⟩
    [(true, 0)] rfl (by decide) (by decide)
  exact ⟨h.1, h.2.1, h.2.2.2.1⟩

/-! ## C2: stale-state query -/

/-- C2 (counterexample): a `q` query against a last event that is stale
(timestamp 0 seen at 2401 s > 40 min) but already records `False` replies
`{a:0}` yet appends **no** new off-event — `database_log(False)`
de-duplicates against the stored `False` — contradicting "appends a new
off-event ... regardless of the stored boolean value". -/
theorem query_stale_false_no_new_row :
    queryStale 2401 [(false, 0)] = true ∧
    handleQuery 1 2401 [(false, 0)] =
      ([(1, build_packet [('a', "0")])], [(false, 0)]) := by
  decide

/-- C2 (amended): when the last durable event is absent or older than the
staleness threshold, the controller always replies `{a:0}` and calls
`database_log(False)`; that call appends a new off-event exactly when the
stored state is not already `False` (absent or `True`), and appends
nothing when it is already `False`. -/
theorem query_stale_replies_off (n now : Nat) (db : List (Bool × Nat))
    (hstale : queryStale now db = true) :
    (handleQuery n now db).1 = [(n, build_packet [('a', "0")])] ∧
    (handleQuery n now db).2 = database_log false now db ∧
    ((get_last_ac_state db).1 = some false → (handleQuery n now db).2 = db) ∧
    ((get_last_ac_state db).1 ≠ some false →
      (handleQuery n now db).2 = (false, now) :: db) := by
  have hq : handleQuery n now db =
      ([(n, build_packet [('a', "0")])], database_log false now db) := by
    cases db with
    | nil => rfl
    | cons r rest =>
      obtain ⟨b, tb⟩ := r
      have hgt : DB_STALE_THRESHOLD * 60 < now - tb := by
        simpa [queryStale, get_last_ac_state] using hstale
      simp only [handleQuery, get_last_ac_state]
      rw [if_neg (by omega)]
  refine ⟨by rw [hq], by rw [hq], fun h => ?_, fun h => ?_⟩
  · rw [hq]
    simp [database_log, h]
  · rw [hq]
    simp only [database_log, if_neg h]

/-- C2 (witness): stale stored `True` at 2401 s — replies off and appends
the off-event. -/
theorem query_stale_replies_off_witness :
    (handleQuery 1 2401 [(true, 0)]).1 = [(1, build_packet [('a', "0")])] ∧
    (handleQuery 1 2401 [(true, 0)]).2 = (false, 2401) :: [(true, 0)] :=
  ⟨(query_stale_replies_off 1 2401 [(true, 0)] (by decide)).1,
   (query_stale_replies_off 1 2401 [(true, 0)] (by decide)).2.2.2
     (by decide)⟩

/-! ## C3: keypad `a`-command forwarding -/

/-- C3 (counterexample): a keypad frame with `a`-value `"2"` is forwarded
to the actuator node as `{a:0}` — `int("2") == 1` is false, so the value
is normalized — not as `{a:2}` as "forwards `{a:value}`" states, and the
echo also carries the normalized value. -/
theorem ac_forward_normalizes_value :
    handleAcCommand "2" true true 7 [(true, 0)] =
      some ([(NODE_AC_RELAY, build_packet [('a', "0")]),
             (NODE_TEMP_LCD, build_packet [('a', "0")])],
            [(false, 7), (true, 0)], []) ∧
    build_packet [('a', "0")] ≠ build_packet [('a', "2")] := by
  decide

/-- C3 (amended): for a keypad frame whose `a`-value parses as an integer
`i`, the controller always forwards to the actuator node the normalized
frame `{a:1}` if `i = 1` and `{a:0}` otherwise; exactly when that forward
delivery succeeds, the same normalized value is echoed to the sensor node
and the state event is passed to `database_log`; on delivery failure only
a local error line results and the log is unchanged. -/
theorem ac_command_forward_echo_log (v : String) (i : Int)
    (fwd echo : Bool) (now : Nat) (db : List (Bool × Nat))
    (hp : pyInt v = some i) :
    handleAcCommand v fwd echo now db = some (
      if fwd then
        ([(NODE_AC_RELAY, build_packet [('a', if i == 1 then "1" else "0")]),
          (NODE_TEMP_LCD, build_packet [('a', if i == 1 then "1" else "0")])],
         database_log (i == 1) now db, [])
      else
        ([(NODE_AC_RELAY,
            build_packet [('a', if i == 1 then "1" else "0")])], db,
         [if i == 1 then "Failed to turn ON AC - AC_Interface not responding"
          else "Failed to turn OFF AC - AC_Interface not responding"])) := by
  unfold handleAcCommand
  rw [hp]
  cases hi : (i == 1) <;> cases fwd <;> simp [hi]

/-- C3 (witness): value `"1"` with a successful forward — relay and echo
frames `{a:1}` and the on-event logged. -/
theorem ac_command_forward_echo_log_witness :
    handleAcCommand "1" true true 3 [] =
      some ([(NODE_AC_RELAY, build_packet [('a', "1")]),
             (NODE_TEMP_LCD, build_packet [('a', "1")])],
            [(true, 3)], []) := by
  have h := ac_command_forward_echo_log "1" 1 true true 3 [] (by decide)
  simpa using h

/-! ## C7: connected/failed mutual exclusion -/

/-- Controller states reachable from the empty sets via the three mutation
sites.  `ping` carries the call-site discipline of the health sweep
(line 898: `for client in connected_clients: ping_node(client)` — only a
currently connected node is ever pinged). -/
inductive ReachableHealth : Health → Prop where
  | init : ReachableHealth initialHealth
  | ping (h : Health) (lastHeard now : Nat) (ok : Bool) (n : Nat) :
      ReachableHealth h → n ∈ h.connected →
      ReachableHealth (applyHealthOp h (.ping lastHeard now ok n))
  | inbound (h : Health) (n : Nat) :
      ReachableHealth h → ReachableHealth (applyHealthOp h (.inbound n))
  | disconnect (h : Health) (n : Nat) :
      ReachableHealth h → ReachableHealth (applyHealthOp h (.disconnect n))

/-- The inductive invariant: both lists duplicate-free and disjoint. -/
def HealthInv (h : Health) : Prop :=
  h.connected.Nodup ∧ h.failed.Nodup ∧
    ∀ n, ¬(n ∈ h.connected ∧ n ∈ h.failed)

theorem healthInv_of_reachable (h : Health) (hr : ReachableHealth h) :
    HealthInv h := by
  induction hr with
  | init => exact ⟨List.nodup_nil, List.nodup_nil, by simp [initialHealth]⟩
  | ping h lastHeard now ok n _ hmem ih =>
    obtain ⟨hcn, hfn, hdisj⟩ := ih
    simp only [applyHealthOp]
    split
    · exact ⟨hcn, hfn, hdisj⟩
    · cases ok with
      | false =>
        simp only [Bool.not_false, if_pos rfl]
        refine ⟨hcn.erase n, ?_, ?_⟩
        · have hnf : n ∉ h.failed := fun hin => hdisj n ⟨hmem, hin⟩
          simp [List.nodup_append, hfn, hnf]
        · intro m ⟨hmc, hmf⟩
          rcases List.mem_append.1 hmf with hmf | hmf
          · exact hdisj m ⟨List.mem_of_mem_erase hmc, hmf⟩
          · have hmn : m = n := by simpa using hmf
            subst hmn
            exact ((hcn.mem_erase_iff).1 hmc).1 rfl
      | true =>
        simp only [Bool.not_true, Bool.false_eq_true, if_neg
          (by simp : ¬False), if_pos hmem]
        refine ⟨hcn, hfn.erase n, ?_⟩
        intro m ⟨hmc, hmf⟩
        exact hdisj m ⟨hmc, List.mem_of_mem_erase hmf⟩
  | inbound h n _ ih =>
    obtain ⟨hcn, hfn, hdisj⟩ := ih
    simp only [applyHealthOp]
    by_cases hmem : n ∈ h.connected
    · rw [if_pos hmem]
      refine ⟨hcn, hfn.erase n, ?_⟩
      intro m ⟨hmc, hmf⟩
      exact hdisj m ⟨hmc, List.mem_of_mem_erase hmf⟩
    · rw [if_neg hmem]
      refine ⟨?_, hfn.erase n, ?_⟩
      · simp [List.nodup_append, hcn, hmem]
      · intro m ⟨hmc, hmf⟩
        rcases List.mem_append.1 hmc with hmc | hmc
        · exact hdisj m ⟨hmc, List.mem_of_mem_erase hmf⟩
        · have hmn : m = n := by simpa using hmc
          subst hmn
          exact ((hfn.mem_erase_iff).1 hmf).1 rfl
  | disconnect h n _ ih =>
    obtain ⟨hcn, hfn, hdisj⟩ := ih
    exact ⟨hcn.erase n, hfn, fun m ⟨hmc, hmf⟩ =>
      hdisj m ⟨List.mem_of_mem_erase hmc, hmf⟩⟩

/-- C7: in every reachable controller state, no node id is simultaneously
a member of the connected set and of the failed set — every membership
mutation (probe success, probe failure, inbound-frame tracking,
disconnection) preserves the exclusion. -/
theorem health_sets_disjoint (h : Health) (hr : ReachableHealth h)
    (n : Nat) :
    (decide (n ∈ h.connected) && decide (n ∈ h.failed)) = false := by
  have hinv := healthInv_of_reachable h hr
  by_cases hc : n ∈ h.connected
  · by_cases hf : n ∈ h.failed
    · exact absurd ⟨hc, hf⟩ (hinv.2.2 n)
    · simp [hf]
  · simp [hc]

/-- C7 (witness): a concrete reachable state — node 2 heard from, then
probed and failed, then node 3 heard from. -/
theorem health_sets_disjoint_witness :
    (decide (2 ∈ (applyHealthOp (applyHealthOp (applyHealthOp initialHealth
        (.inbound 2)) (.ping 0 100 false 2)) (.inbound 3)).connected) &&
     decide (2 ∈ (applyHealthOp (applyHealthOp (applyHealthOp initialHealth
        (.inbound 2)) (.ping 0 100 false 2)) (.inbound 3)).failed)) =
      false :=
  health_sets_disjoint _
    (ReachableHealth.inbound _ 3
      (ReachableHealth.ping _ 0 100 false 2
        (ReachableHealth.inbound _ 2 ReachableHealth.init) (by decide)))
    2

/-! ## C9: `TurnOnAC` is not gated by the permission flag -/

/-- C9: a `TurnOnAC` relay-client command always attempts the `{a:1}`
send to the actuator node first, and the whole `TurnOnAC` trace is
independent of the permission flag — the flag gates nothing on this path.
-/
theorem turn_on_ac_ungated (ctx : Ctx) :
    (socketStep ctx "TurnOnAC").head? =
      some (.meshSend NODE_AC_RELAY (build_packet [('a', "1")])) ∧
    ∀ b, socketStep { ctx with acAllowed := b } "TurnOnAC" =
      socketStep ctx "TurnOnAC" := by
  constructor
  · unfold socketStep
    simp only [String.reduceEq, if_false, reduceIte]
    cases h : ctx.sendOk NODE_AC_RELAY (build_packet [('a', "1")]) <;>
      simp [h]
  · intro b
    unfold socketStep
    simp only [String.reduceEq, if_false, reduceIte]

/-! ## C10: `setBrightness` clamps instead of rejecting -/

theorem isPrefixOf_self_append : ∀ l r : List Char,
    l.isPrefixOf (l ++ r) = true
  | [], _ => by simp [List.isPrefixOf]
  | c :: l, r => by
    simp [List.isPrefixOf, isPrefixOf_self_append l r]

theorem startsWithStr_append (p v : String) :
    startsWithStr p (p ++ v) = true := by
  show (p.data).isPrefixOf (p.data ++ v.data) = true
  exact isPrefixOf_self_append p.data v.data

/-- A `setBrightness:`-prefixed command differs from any text whose first
14 characters are not `"setBrightness:"`. -/
theorem setBrightness_append_ne (v t : String)
    (h : t.data.take 14 ≠ "setBrightness:".data) :
    "setBrightness:" ++ v ≠ t := by
  intro he
  apply h
  rw [← he]
  show (("setBrightness:" ++ v).data).take 14 = _
  have hd : ("setBrightness:" ++ v).data =
      "setBrightness:".data ++ v.data := rfl
  have hlen : ("setBrightness:".data).length = 14 := rfl
  rw [hd, ← hlen, List.take_left]

theorem pyInt_chars (v : String) (i : Int) (h : pyInt v = some i) :
    ∀ c ∈ v.data, c.isDigit = true ∨ c = '-' ∨ c = '+' := by
  unfold pyInt at h
  split at h
  · exact absurd h (by simp)
  case _ rest heq =>
    split at h
    case _ hcond =>
      intro c hc
      rw [heq] at hc
      rcases List.mem_cons.1 hc with rfl | hc
      · exact Or.inr (Or.inl rfl)
      · exact Or.inl (by simpa using List.all_eq_true.1 hcond.2 c hc)
    · exact absurd h (by simp)
  case _ rest heq =>
    split at h
    case _ hcond =>
      intro c hc
      rw [heq] at hc
      rcases List.mem_cons.1 hc with rfl | hc
      · exact Or.inr (Or.inr rfl)
      · exact Or.inl (by simpa using List.all_eq_true.1 hcond.2 c hc)
    · exact absurd h (by simp)
  case _ =>
    split at h
    case _ hcond =>
      intro c hc
      exact Or.inl (by simpa using List.all_eq_true.1 hcond c hc)
    · exact absurd h (by simp)

theorem pyInt_no_colon (v : String) (i : Int) (h : pyInt v = some i) :
    ∀ c ∈ v.data, c ≠ ':' := by
  intro c hc he
  subst he
  rcases pyInt_chars v i h ':' hc with hd | hd | hd <;> simp at hd

/-- Splitting a `setBrightness:`-prefixed command at `':'` when the
argument itself contains no colon. -/
theorem splitChar_setBrightness (v : String)
    (hv : ∀ c ∈ v.data, c ≠ ':') :
    splitChar ':' (("setBrightness:" ++ v).data) =
      ["setBrightness".data, v.data] := by
  have hd : ("setBrightness:" ++ v).data =
      "setBrightness".data ++ (':' :: v.data) := rfl
  rw [hd, splitChar_append ':' _ _ (by decide)]
  have h1 : splitChar ':' (':' :: v.data) = [] :: splitChar ':' v.data := by
    simp [splitChar]
  rw [h1, splitChar_of_no_sep ':' v.data hv]
  simp

/-- Evaluation of the dispatcher on a `setBrightness:` command whose
argument contains no colon: none of the nine earlier equality guards can
match, the `startswith` guard fires, and the branch body runs on the
argument. -/
theorem socketStep_setBrightness (ctx : Ctx) (v : String)
    (hv : ∀ c ∈ v.data, c ≠ ':') :
    socketStep ctx ("setBrightness:" ++ v) =
      match pyInt v with
      | none => [.clientReply "Invalid format: use setBrightness:0-100"]
      | some b =>
        [.meshSend NODE_TEMP_LCD
           (build_packet [('b', toString (max 0 (min 100 b)))]),
         .info ("LED brightness set to " ++ toString (max 0 (min 100 b))
           ++ "%")] := by
  unfold socketStep
  rw [if_neg (setBrightness_append_ne v "AC_Status" (by decide)),
      if_neg (setBrightness_append_ne v "AC_Perm_Status" (by decide)),
      if_neg (setBrightness_append_ne v "ToggleAC" (by decide)),
      if_neg (setBrightness_append_ne v "TurnOnAC" (by decide)),
      if_neg (setBrightness_append_ne v "TurnOffAC" (by decide)),
      if_neg (setBrightness_append_ne v "getTemps" (by decide)),
      if_neg (setBrightness_append_ne v "ResetNode" (by decide)),
      if_neg (setBrightness_append_ne v "current_temp" (by decide)),
      if_neg (setBrightness_append_ne v "shut_down" (by decide)),
      startsWithStr_append, if_pos rfl, splitChar_setBrightness v hv]
  rfl

/-- C10: a `setBrightness:<v>` command whose argument parses as an integer
is never rejected — the value is clamped to `[0, 100]` and sent as key `b`
to the sensor/display node — while a non-integer argument yields the
invalid-format reply. -/
theorem set_brightness_clamps :
    (∀ (ctx : Ctx) (v : String) (i : Int), pyInt v = some i →
      socketStep ctx ("setBrightness:" ++ v) =
        [.meshSend NODE_TEMP_LCD
           (build_packet [('b', toString (max 0 (min 100 i)))]),
         .info ("LED brightness set to " ++ toString (max 0 (min 100 i))
           ++ "%")]) ∧
    (∀ (ctx : Ctx) (v : String), pyInt v = none →
      (∀ c ∈ v.data, c ≠ ':') →
      socketStep ctx ("setBrightness:" ++ v) =
        [.clientReply "Invalid format: use setBrightness:0-100"]) := by
  constructor
  · intro ctx v i hp
    rw [socketStep_setBrightness ctx v (pyInt_no_colon v i hp), hp]
  · intro ctx v hp hv
    rw [socketStep_setBrightness ctx v hv, hp]

/-- A concrete environment for witness evaluations of the dispatcher. -/
def ctx0 : Ctx :=
  ⟨0, [(true, 0)], false, some "70.1", "78.0", "72.0", [],
   fun _ _ => true⟩

/-- C10 (witness): `setBrightness:150` is clamped to 100 and sent, and the
non-integer `setBrightness:1x` gets the invalid-format reply. -/
theorem set_brightness_clamps_witness :
    socketStep ctx0 ("setBrightness:" ++ "150") =
      [.meshSend NODE_TEMP_LCD
         (build_packet [('b', toString (max 0 (min 100 (150 : Int))))]),
       .info ("LED brightness set to "
         ++ toString (max 0 (min 100 (150 : Int))) ++ "%")] ∧
    socketStep ctx0 ("setBrightness:" ++ "1x") =
      [.clientReply "Invalid format: use setBrightness:0-100"] :=
  ⟨set_brightness_clamps.1 ctx0 "150" 150 (by decide),
   set_brightness_clamps.2 ctx0 "1x" (by decide) (by decide)⟩

end ACMesh
